import Mathlib

/-!
# Marketing dashboard: verification of the data-aggregation pipeline

Shallow embedding of the repository's data-aggregation and metric-derivation
pipeline:

* `src/api/get-live-data.js` (the second serverless function in the
  concatenated `src/api/ask-gemini.js` source file): the two source adapters
  (`fetchFacebookData`, `fetchTikTokData`), the date-range enumerator
  (`getDateArray`), the metric deriver (`calculateMetric`,
  `calculateAllDerivedMetrics`) and the orchestrating request `handler`.
* `src/utils/dataCalculations.ts`: the frontend metric deriver
  (`calculateMetric`, `calculateAllMetrics`, `processApiData`).

Modelling conventions, stated once here:

* JavaScript numbers are modelled by `JSNum`: an exact rational (`num`),
  `nan`, or a signed infinity (`inf`/`ninf`).  Exact rational arithmetic
  abstracts binary64 rounding, and the negative zero of binary64 is
  identified with `0`; neither rounding nor `-0` is load-bearing for any
  property proved below.
* A `CalendarDay` (a `YYYY-MM-DD` UTC date string in the source) is modelled
  as its day number since the epoch, a `Nat`.  The source's `formatDate`
  (ISO rendering of a UTC midnight) is an order-isomorphism between epoch
  day numbers and the canonical date strings, so equality, ordering,
  uniqueness and consecutiveness of date strings coincide with those of the
  day numbers.  JavaScript `Date` comparison of UTC midnights and the
  `setDate(getDate() + 1)` step correspond to `≤` and `+ 1` on day numbers.
* A JavaScript object used as a date-keyed dictionary is modelled as a
  function `Nat → Option entry`; `obj[k] || dflt` becomes
  `(m k).getD dflt` (an entry object is always truthy).
-/

/-- A JavaScript number: an exact rational, `NaN`, `Infinity` or
`-Infinity`. -/
inductive JSNum : Type
  | num (q : ℚ)
  | nan
  | inf
  | ninf
deriving DecidableEq, Repr

namespace JSNum

/-- The JavaScript `isNaN` test on a number. -/
def isNaN : JSNum → Bool
  | nan => true
  | _ => false

/-- The JavaScript strict comparison `x === 0` on a number (`NaN === 0` and
`Infinity === 0` are `false`). -/
def eqZero : JSNum → Bool
  | num q => decide (q = 0)
  | _ => false

/-- The value is a finite number (not `NaN`, not an infinity): a "plain
number". -/
def isFinite : JSNum → Bool
  | num _ => true
  | _ => false

/-- The value is finite or `NaN` — i.e. not an infinity.  Every counter the
pipeline builds (via `parseInt`/`parseFloat` of upstream fields) lies in
this fragment. -/
def isFiniteOrNaN : JSNum → Bool
  | num _ => true
  | nan => true
  | _ => false

/-- JavaScript multiplication. -/
def jsMul : JSNum → JSNum → JSNum
  | nan, _ => nan
  | _, nan => nan
  | num a, num b => num (a * b)
  | num a, inf => if 0 < a then inf else if a < 0 then ninf else nan
  | num a, ninf => if 0 < a then ninf else if a < 0 then inf else nan
  | inf, num b => if 0 < b then inf else if b < 0 then ninf else nan
  | ninf, num b => if 0 < b then ninf else if b < 0 then inf else nan
  | inf, inf => inf
  | inf, ninf => ninf
  | ninf, inf => ninf
  | ninf, ninf => inf

/-- JavaScript division (with `-0` identified with `0`: `a / 0` for finite
`a > 0` gives `Infinity`, `0 / 0` gives `NaN`). -/
def jsDiv : JSNum → JSNum → JSNum
  | nan, _ => nan
  | _, nan => nan
  | num a, num b =>
      if b = 0 then (if a = 0 then nan else if 0 < a then inf else ninf)
      else num (a / b)
  | num _, inf => num 0
  | num _, ninf => num 0
  | inf, num b => if b < 0 then ninf else inf
  | ninf, num b => if b < 0 then inf else ninf
  | inf, inf => nan
  | inf, ninf => nan
  | ninf, inf => nan
  | ninf, ninf => nan

end JSNum

/-- `src/types.ts` `RawMarketingDataEntry`: one day's flat record of the
eight base counters for both platforms (also the shape of the per-day base
object `baseMetricsEntry` built by the backend handler). -/
structure RawMarketingDataEntry : Type where
  date : Nat
  fbClicks : JSNum
  fbImpr : JSNum
  fbCost : JSNum
  fbConv : JSNum
  ttClicks : JSNum
  ttImpr : JSNum
  ttCost : JSNum
  ttConv : JSNum
deriving DecidableEq, Repr

/-- `src/types.ts` `CalculatedMetrics`: the ten derived ratio metrics. -/
structure CalculatedMetrics : Type where
  fbCtr : JSNum
  fbCpm : JSNum
  fbCpc : JSNum
  fbCpa : JSNum
  fbCvr : JSNum
  ttCtr : JSNum
  ttCpm : JSNum
  ttCpc : JSNum
  ttCpa : JSNum
  ttCvr : JSNum
deriving DecidableEq, Repr

/-- `src/types.ts` `ProcessedMarketingDataEntry`: a raw entry together with
its calculated metrics (the source flattens the two by object spread; the
pairing is structurally identical). -/
structure ProcessedMarketingDataEntry : Type where
  base : RawMarketingDataEntry
  metrics : CalculatedMetrics
deriving DecidableEq, Repr

namespace DataCalculations

/-- `src/utils/dataCalculations.ts` `calculateMetric`: returns `0` when the
denominator is (strictly) `0`, otherwise `(numerator / denominator) *
multiplier`. -/
def calculateMetric (numerator denominator : JSNum)
    (multiplier : JSNum := JSNum.num 1) : JSNum :=
  if denominator.eqZero then JSNum.num 0
  else (numerator.jsDiv denominator).jsMul multiplier

/-- `src/utils/dataCalculations.ts` `calculateAllMetrics`: the frontend
metric deriver. -/
def calculateAllMetrics (entry : RawMarketingDataEntry) : CalculatedMetrics :=
  let fbCtr := calculateMetric entry.fbClicks entry.fbImpr (JSNum.num 100)
  let fbCpm := calculateMetric entry.fbCost entry.fbImpr (JSNum.num 1000)
  let fbCpc := calculateMetric entry.fbCost entry.fbClicks
  let fbCpa := calculateMetric entry.fbCost entry.fbConv
  let fbCvr := calculateMetric entry.fbConv entry.fbClicks (JSNum.num 100)
  let ttCtr := calculateMetric entry.ttClicks entry.ttImpr (JSNum.num 100)
  let ttCpm := calculateMetric entry.ttCost entry.ttImpr (JSNum.num 1000)
  let ttCpc := calculateMetric entry.ttCost entry.ttClicks
  let ttCpa := calculateMetric entry.ttCost entry.ttConv
  let ttCvr := calculateMetric entry.ttConv entry.ttClicks (JSNum.num 100)
  { fbCtr := fbCtr, fbCpm := fbCpm, fbCpc := fbCpc, fbCpa := fbCpa,
    fbCvr := fbCvr, ttCtr := ttCtr, ttCpm := ttCpm, ttCpc := ttCpc,
    ttCpa := ttCpa, ttCvr := ttCvr }

/-- `src/utils/dataCalculations.ts` `processApiData`: derive metrics for
every raw entry. -/
def processApiData (rawData : List RawMarketingDataEntry) :
    List ProcessedMarketingDataEntry :=
  rawData.map fun entry => { base := entry, metrics := calculateAllMetrics entry }

end DataCalculations

namespace GetLiveData

/-- `src/api/get-live-data.js` `calculateMetric`: returns `0` when the
denominator is `0` or the numerator or denominator is `NaN`, otherwise
`(numerator / denominator) * multiplier`. -/
def calculateMetric (numerator denominator : JSNum)
    (multiplier : JSNum := JSNum.num 1) : JSNum :=
  if denominator.eqZero || numerator.isNaN || denominator.isNaN then JSNum.num 0
  else (numerator.jsDiv denominator).jsMul multiplier

/-- `src/api/get-live-data.js` `calculateAllDerivedMetrics`: the backend
metric deriver, reading the eight base counters of `baseEntry`. -/
def calculateAllDerivedMetrics (baseEntry : RawMarketingDataEntry) :
    CalculatedMetrics where
  fbCtr := calculateMetric baseEntry.fbClicks baseEntry.fbImpr (JSNum.num 100)
  fbCpm := calculateMetric baseEntry.fbCost baseEntry.fbImpr (JSNum.num 1000)
  fbCpc := calculateMetric baseEntry.fbCost baseEntry.fbClicks
  fbCpa := calculateMetric baseEntry.fbCost baseEntry.fbConv
  fbCvr := calculateMetric baseEntry.fbConv baseEntry.fbClicks (JSNum.num 100)
  ttCtr := calculateMetric baseEntry.ttClicks baseEntry.ttImpr (JSNum.num 100)
  ttCpm := calculateMetric baseEntry.ttCost baseEntry.ttImpr (JSNum.num 1000)
  ttCpc := calculateMetric baseEntry.ttCost baseEntry.ttClicks
  ttCpa := calculateMetric baseEntry.ttCost baseEntry.ttConv
  ttCvr := calculateMetric baseEntry.ttConv baseEntry.ttClicks (JSNum.num 100)

/-- `src/api/get-live-data.js` `getDateArray`: the date-range enumerator.
The source loops a UTC-midnight `Date` from `startDateStr` while it is
`<=` the stop date, pushing the formatted day and stepping one day; on epoch
day numbers that is exactly this recursion. -/
def getDateArray (startD stopD : Nat) : List Nat :=
  if startD ≤ stopD then startD :: getDateArray (startD + 1) stopD
  else []
termination_by stopD + 1 - startD
decreasing_by omega

/-- One platform-day of Facebook base counters, as assembled by
`fetchFacebookData` (`fbCost`/`fbClicks`/`fbImpr`/`fbConv`). -/
structure FbBase : Type where
  fbCost : JSNum
  fbClicks : JSNum
  fbImpr : JSNum
  fbConv : JSNum
deriving DecidableEq, Repr

/-- One platform-day of TikTok base counters, as assembled by
`fetchTikTokData` (`ttCost`/`ttClicks`/`ttImpr`/`ttConv`). -/
structure TtBase : Type where
  ttCost : JSNum
  ttClicks : JSNum
  ttImpr : JSNum
  ttConv : JSNum
deriving DecidableEq, Repr

/-- A date-keyed dictionary of Facebook per-day base counters (the
`processedData` object of `fetchFacebookData`). -/
def FbMap : Type := Nat → Option FbBase

/-- A date-keyed dictionary of TikTok per-day base counters (the
`processedData` object of `fetchTikTokData`). -/
def TtMap : Type := Nat → Option TtBase

/-- The empty dictionary `{}`. -/
def emptyMap {β : Type} : Nat → Option β := fun _ => none

/-- JavaScript property assignment `obj[k] = v` on a date-keyed
dictionary. -/
def mapInsert {β : Type} (m : Nat → Option β) (k : Nat) (v : β) :
    Nat → Option β :=
  fun d => if d = k then some v else m d

/-- JavaScript falsiness of an environment variable or credential string:
absent (`undefined`) or the empty string. -/
def falsy : Option String → Bool
  | none => true
  | some s => decide (s = "")

/-- The outcome of one adapter invocation as seen by the caller: the
returned promise either fulfills with a mapping, or rejects (the adapter
re-threw an upstream error). -/
inductive FetchResult (β : Type) : Type
  | returned (m : β)
  | threw

/-- The behaviour of the Meta insights endpoint for one request, reduced to
what `fetchFacebookData` distinguishes: either a non-success HTTP status
(which makes the adapter throw), or a success whose `data` rows have
already been reduced — per the source's per-entry reshaping (`parseFloat`
of `spend`, `parseInt` of `clicks`/`impressions`, and extraction of the
`SurveyCompleted` action's value, defaulting to `0`) — to a `date_start`
key paired with its four parsed counters.  The reshaping of one row is
pure field plumbing and is not itself under verification; its result shape
is `FbBase`. -/
inductive FbUpstream : Type
  | httpError
  | okRows (rows : List (Nat × FbBase))

/-- The behaviour of the TikTok report endpoint for one request, reduced to
what `fetchTikTokData` distinguishes: a non-success HTTP status, a success
payload carrying a non-zero API `code` (both make the adapter throw), or a
success whose `data.list` rows have been reduced — per the source's
reshaping (`parseFloat`/`parseInt` of `spend`, `clicks`, `impressions`,
`submit_form`) — to a `stat_time_day` key paired with its four parsed
counters. -/
inductive TtUpstream : Type
  | httpError
  | apiError
  | okRows (rows : List (Nat × TtBase))

/-- `src/api/get-live-data.js` `fetchFacebookData`.  The `Bool` component
records whether the upstream request was attempted (`fetch` reached).  With
a falsy access token or ad-account id the source returns `{}` without
calling `fetch`; otherwise it performs the request, throws on a non-ok
response, and otherwise folds the response rows into `processedData` by
property assignment. -/
def fetchFacebookData (accessToken adAccountId : Option String)
    (upstream : FbUpstream) : Bool × FetchResult FbMap :=
  if !(falsy accessToken) && !(falsy adAccountId) then
    (true,
      match upstream with
      | FbUpstream.httpError => FetchResult.threw
      | FbUpstream.okRows rows =>
          FetchResult.returned
            (rows.foldl (fun m r => mapInsert m r.1 r.2) emptyMap))
  else
    (false, FetchResult.returned emptyMap)

/-- `src/api/get-live-data.js` `fetchTikTokData`.  Same shape as
`fetchFacebookData`, with the additional throw when the success payload's
`code` is non-zero. -/
def fetchTikTokData (accessToken advertiserId : Option String)
    (upstream : TtUpstream) : Bool × FetchResult TtMap :=
  if !(falsy accessToken) && !(falsy advertiserId) then
    (true,
      match upstream with
      | TtUpstream.httpError => FetchResult.threw
      | TtUpstream.apiError => FetchResult.threw
      | TtUpstream.okRows rows =>
          FetchResult.returned
            (rows.foldl (fun m r => mapInsert m r.1 r.2) emptyMap))
  else
    (false, FetchResult.returned emptyMap)

/-- The settled state of one adapter promise as observed after
`Promise.allSettled`. -/
inductive Settled (β : Type) : Type
  | fulfilled (value : β)
  | rejected

/-- The handler's per-platform projection of a settled adapter promise:
`result.status === 'fulfilled' ? result.value : {}`. -/
def settledOrEmpty {β : Type} (outcome : Settled (Nat → Option β)) :
    Nat → Option β :=
  match outcome with
  | Settled.fulfilled value => value
  | Settled.rejected => emptyMap

/-- The four environment credentials read by the handler. -/
structure Env : Type where
  META_ACCESS_TOKEN : Option String
  META_AD_ACCOUNT_ID : Option String
  TIKTOK_ACCESS_TOKEN : Option String
  TIKTOK_ADVERTISER_ID : Option String

/-- All four credentials are present (none is falsy) — the handler's
line-360 guard passes. -/
def credsPresent (env : Env) : Bool :=
  !(falsy env.META_ACCESS_TOKEN) && !(falsy env.META_AD_ACCOUNT_ID) &&
    !(falsy env.TIKTOK_ACCESS_TOKEN) && !(falsy env.TIKTOK_ADVERTISER_ID)

/-- A decimal digit. -/
def isDecDigit (c : Char) : Bool := decide ('0' ≤ c) && decide (c ≤ '9')

/-- The longest leading run of decimal digits. -/
def digitsPrefix : List Char → List Char
  | [] => []
  | c :: cs => if isDecDigit c then c :: digitsPrefix cs else []

/-- Numeric value of a decimal digit string. -/
def digitsToNat (ds : List Char) : Nat :=
  ds.foldl (fun n c => n * 10 + (c.toNat - Char.toNat '0')) 0

/-- JavaScript `parseInt(s, 10)` as called on `queryParams.days`: skip
leading whitespace, read an optional sign, then take the numeric value of
the longest leading run of decimal digits, ignoring everything after it —
so `parseInt("365.5", 10)` and `parseInt("365e2", 10)` are `365`.  `none`
models a `NaN` result (no leading digits). -/
def parseInt (s : String) : Option Int :=
  match s.data.dropWhile Char.isWhitespace with
  | '-' :: rest =>
      match digitsPrefix rest with
      | [] => none
      | ds => some (-(digitsToNat ds : Int))
  | '+' :: rest =>
      match digitsPrefix rest with
      | [] => none
      | ds => some ((digitsToNat ds : Int))
  | rest =>
      match digitsPrefix rest with
      | [] => none
      | ds => some ((digitsToNat ds : Int))

/-- The handler's `daysToFetch` computation (the `queryParams.days` block):
when `queryParams.days` is present and truthy (a non-empty string), parse
it with `parseInt(·, 10)`; the parse is used only when it is not `NaN` and
is exactly `90` or `365`, otherwise the default `90` stands. -/
def resolveDaysToFetch (daysQuery : Option String) : Nat :=
  match daysQuery with
  | some days =>
      if days ≠ "" then
        match parseInt days with
        | some daysParam =>
            if daysParam = 90 ∨ daysParam = 365 then daysParam.toNat else 90
        | none => 90
      else 90
  | none => 90

/-- The handler's `defaultFbEntry` (all-zero Facebook counters). -/
def defaultFbEntry : FbBase :=
  { fbCost := JSNum.num 0, fbClicks := JSNum.num 0, fbImpr := JSNum.num 0,
    fbConv := JSNum.num 0 }

/-- The handler's `defaultTtEntry` (all-zero TikTok counters). -/
def defaultTtEntry : TtBase :=
  { ttCost := JSNum.num 0, ttClicks := JSNum.num 0, ttImpr := JSNum.num 0,
    ttConv := JSNum.num 0 }

/-- The body of the handler's `allDatesInRange.map`: look each platform's
entry up for the day (falling back to the all-zero default), assemble the
flat `baseMetricsEntry`, and spread it together with its derived
metrics. -/
def mkDailyRecord (fbData : FbMap) (ttData : TtMap) (dateStr : Nat) :
    ProcessedMarketingDataEntry :=
  let fbEntry := (fbData dateStr).getD defaultFbEntry
  let ttEntry := (ttData dateStr).getD defaultTtEntry
  let baseMetricsEntry : RawMarketingDataEntry :=
    { date := dateStr,
      fbClicks := fbEntry.fbClicks, fbImpr := fbEntry.fbImpr,
      fbCost := fbEntry.fbCost, fbConv := fbEntry.fbConv,
      ttClicks := ttEntry.ttClicks, ttImpr := ttEntry.ttImpr,
      ttCost := ttEntry.ttCost, ttConv := ttEntry.ttConv }
  { base := baseMetricsEntry,
    metrics := calculateAllDerivedMetrics baseMetricsEntry }

/-- The handler's possible responses.  `serverError` is the `catch`-all 500
branch; no step of the modelled body throws, so it is never produced. -/
inductive Response : Type
  | methodNotAllowed
  | serviceUnavailable
  | ok (data : List ProcessedMarketingDataEntry)
  | serverError

/-- `src/api/get-live-data.js` default-export `handler`.  Inputs beyond the
request itself: `today` is the epoch day of `new Date()`, and
`fbOutcome`/`ttOutcome` are the settled states of the two adapter promises
joined by `Promise.allSettled` (the adapters themselves are modelled
separately as `fetchFacebookData`/`fetchTikTokData`; the handler consumes
only their settled outcomes).  The final `finalData.sort` compares
`new Date(b.date) - new Date(a.date)`, i.e. orders records so that each
later record's day is `≤` the earlier one's. -/
def handler (httpMethod method : Option String) (env : Env)
    (daysQuery : Option String) (today : Nat)
    (fbOutcome : Settled FbMap) (ttOutcome : Settled TtMap) : Response :=
  if httpMethod ≠ some "GET" ∧ method ≠ some "GET" then
    Response.methodNotAllowed
  else if !(credsPresent env) then
    Response.serviceUnavailable
  else
    let daysToFetch := resolveDaysToFetch daysQuery
    let startDate := today - (daysToFetch - 1)
    let fbData : FbMap := settledOrEmpty fbOutcome
    let ttData : TtMap := settledOrEmpty ttOutcome
    let allDatesInRange := getDateArray startDate today
    let finalData := allDatesInRange.map (mkDailyRecord fbData ttData)
    Response.ok
      (finalData.mergeSort fun a b => decide (b.base.date ≤ a.base.date))

/-- The table the handler returns on its success path (the sorted, dense,
merged result), as a standalone function of the two settled mappings and the
canonical range: abbreviates the handler's `finalData.sort`. -/
def reconTable (fbData : FbMap) (ttData : TtMap) (startD stopD : Nat) :
    List ProcessedMarketingDataEntry :=
  ((getDateArray startD stopD).map (mkDailyRecord fbData ttData)).mergeSort
    fun a b => decide (b.base.date ≤ a.base.date)

/-- The Facebook side of a daily record is entirely zero: its four base
counters and its five derived metrics. -/
def fbAllZero (r : ProcessedMarketingDataEntry) : Prop :=
  r.base.fbClicks = JSNum.num 0 ∧ r.base.fbImpr = JSNum.num 0 ∧
    r.base.fbCost = JSNum.num 0 ∧ r.base.fbConv = JSNum.num 0 ∧
    r.metrics.fbCtr = JSNum.num 0 ∧ r.metrics.fbCpm = JSNum.num 0 ∧
    r.metrics.fbCpc = JSNum.num 0 ∧ r.metrics.fbCpa = JSNum.num 0 ∧
    r.metrics.fbCvr = JSNum.num 0

/-- The TikTok side of a daily record is entirely zero: its four base
counters and its five derived metrics. -/
def ttAllZero (r : ProcessedMarketingDataEntry) : Prop :=
  r.base.ttClicks = JSNum.num 0 ∧ r.base.ttImpr = JSNum.num 0 ∧
    r.base.ttCost = JSNum.num 0 ∧ r.base.ttConv = JSNum.num 0 ∧
    r.metrics.ttCtr = JSNum.num 0 ∧ r.metrics.ttCpm = JSNum.num 0 ∧
    r.metrics.ttCpc = JSNum.num 0 ∧ r.metrics.ttCpa = JSNum.num 0 ∧
    r.metrics.ttCvr = JSNum.num 0

end GetLiveData

/-- All eight base counters of an entry are non-infinite (finite or `NaN`). -/
def RawMarketingDataEntry.fieldsFiniteOrNaN (b : RawMarketingDataEntry) : Bool :=
  b.fbClicks.isFiniteOrNaN && b.fbImpr.isFiniteOrNaN && b.fbCost.isFiniteOrNaN &&
    b.fbConv.isFiniteOrNaN && b.ttClicks.isFiniteOrNaN && b.ttImpr.isFiniteOrNaN &&
    b.ttCost.isFiniteOrNaN && b.ttConv.isFiniteOrNaN

/-- None of the eight base counters of an entry is `NaN`. -/
def RawMarketingDataEntry.noNaNFields (b : RawMarketingDataEntry) : Bool :=
  !b.fbClicks.isNaN && !b.fbImpr.isNaN && !b.fbCost.isNaN && !b.fbConv.isNaN &&
    !b.ttClicks.isNaN && !b.ttImpr.isNaN && !b.ttCost.isNaN && !b.ttConv.isNaN

/-- All ten derived metrics of a `CalculatedMetrics` are finite ("plain")
numbers. -/
def CalculatedMetrics.allFinite (m : CalculatedMetrics) : Bool :=
  m.fbCtr.isFinite && m.fbCpm.isFinite && m.fbCpc.isFinite && m.fbCpa.isFinite &&
    m.fbCvr.isFinite && m.ttCtr.isFinite && m.ttCpm.isFinite && m.ttCpc.isFinite &&
    m.ttCpa.isFinite && m.ttCvr.isFinite

/-! ## Helper lemmas -/

namespace GetLiveData

theorem getDateArray_eq_range' (startD stopD : Nat) :
    getDateArray startD stopD = List.range' startD (stopD + 1 - startD) := by
  induction startD, stopD using getDateArray.induct with
  | case1 s e h ih =>
      rw [getDateArray, if_pos h, ih]
      have he : e + 1 - s = (e + 1 - (s + 1)) + 1 := by omega
      rw [he, List.range'_succ]
  | case2 s e h =>
      rw [getDateArray, if_neg h]
      have he : e + 1 - s = 0 := by omega
      rw [he, List.range']

theorem length_getDateArray (startD stopD : Nat) :
    (getDateArray startD stopD).length = stopD + 1 - startD := by
  rw [getDateArray_eq_range', List.length_range']

theorem mem_getDateArray {d startD stopD : Nat} :
    d ∈ getDateArray startD stopD ↔ startD ≤ d ∧ d ≤ stopD := by
  rw [getDateArray_eq_range', List.mem_range'_1]
  omega

theorem nodup_getDateArray (startD stopD : Nat) :
    (getDateArray startD stopD).Nodup := by
  rw [getDateArray_eq_range']
  exact List.nodup_range' startD (stopD + 1 - startD)

theorem getDateArray_getD (startD stopD i : Nat)
    (hi : i < (getDateArray startD stopD).length) :
    (getDateArray startD stopD).getD i 0 = startD + i := by
  rw [getDateArray_eq_range'] at hi ⊢
  rw [List.getD_eq_getElem _ _ hi, List.getElem_range']
  omega

theorem pairwise_lt_getDateArray (startD stopD : Nat) :
    (getDateArray startD stopD).Pairwise (· < ·) := by
  rw [getDateArray_eq_range']
  exact List.pairwise_lt_range' startD (stopD + 1 - startD)

/-- The backend `calculateMetric` yields a finite number whenever neither
argument is an infinity and the multiplier is finite. -/
theorem calculateMetric_isFinite (numerator denominator multiplier : JSNum)
    (hn : numerator.isFiniteOrNaN = true) (hd : denominator.isFiniteOrNaN = true)
    (hm : multiplier.isFinite = true) :
    (calculateMetric numerator denominator multiplier).isFinite = true := by
  cases numerator with
  | num p =>
      cases denominator with
      | num q =>
          cases multiplier with
          | num m =>
              by_cases hq : q = 0 <;>
                simp [calculateMetric, JSNum.eqZero, JSNum.isNaN, JSNum.jsDiv,
                  JSNum.jsMul, JSNum.isFinite, hq]
          | nan => simp [JSNum.isFinite] at hm
          | inf => simp [JSNum.isFinite] at hm
          | ninf => simp [JSNum.isFinite] at hm
      | nan => simp [calculateMetric, JSNum.isNaN, JSNum.isFinite]
      | inf => simp [JSNum.isFiniteOrNaN] at hd
      | ninf => simp [JSNum.isFiniteOrNaN] at hd
  | nan => simp [calculateMetric, JSNum.isNaN, JSNum.isFinite]
  | inf => simp [JSNum.isFiniteOrNaN] at hn
  | ninf => simp [JSNum.isFiniteOrNaN] at hn

/-- The backend `calculateMetric` returns `0` whenever its guard fires. -/
theorem calculateMetric_guard (numerator denominator multiplier : JSNum)
    (hguard : denominator.eqZero = true ∨ numerator.isNaN = true ∨
      denominator.isNaN = true) :
    calculateMetric numerator denominator multiplier = JSNum.num 0 := by
  rcases hguard with h | h | h <;> simp [calculateMetric, h]

theorem resolveDaysToFetch_cases (daysQuery : Option String) :
    resolveDaysToFetch daysQuery = 90 ∨ resolveDaysToFetch daysQuery = 365 := by
  match daysQuery with
  | none => exact Or.inl rfl
  | some days =>
      by_cases hne : days = ""
      · subst hne
        exact Or.inl rfl
      · cases hp : parseInt days with
        | none => exact Or.inl (by simp [resolveDaysToFetch, hne, hp])
        | some n =>
            by_cases h : n = 90 ∨ n = 365
            · rcases h with h | h <;> subst h
              · exact Or.inl (by simp [resolveDaysToFetch, hne, hp])
              · exact Or.inr (by simp [resolveDaysToFetch, hne, hp])
            · exact Or.inl (by simp [resolveDaysToFetch, hne, hp, h])

/-- On a `GET` request with all four credentials present, the handler
reaches its success path and returns the sorted merged table. -/
theorem handler_ok_eq (m2 : Option String) (env : Env)
    (daysQuery : Option String) (today : Nat)
    (fbOutcome : Settled FbMap) (ttOutcome : Settled TtMap)
    (hcred : credsPresent env = true) :
    handler (some "GET") m2 env daysQuery today fbOutcome ttOutcome =
      Response.ok
        (reconTable (settledOrEmpty fbOutcome) (settledOrEmpty ttOutcome)
          (today - (resolveDaysToFetch daysQuery - 1)) today) := by
  unfold handler
  rw [if_neg (by simp), if_neg (by simp [hcred])]
  rfl

theorem mkDailyRecord_date (fbData : FbMap) (ttData : TtMap) (dateStr : Nat) :
    (mkDailyRecord fbData ttData dateStr).base.date = dateStr := rfl

theorem map_date_mkDailyRecord (fbData : FbMap) (ttData : TtMap)
    (dates : List Nat) :
    ((dates.map (mkDailyRecord fbData ttData)).map fun r => r.base.date) =
      dates := by
  rw [List.map_map]
  have hcomp : ((fun r : ProcessedMarketingDataEntry => r.base.date) ∘
      mkDailyRecord fbData ttData) = id := by
    funext d
    rfl
  rw [hcomp, List.map_id]

theorem length_reconTable (fbData : FbMap) (ttData : TtMap) (startD stopD : Nat) :
    (reconTable fbData ttData startD stopD).length = stopD + 1 - startD := by
  simp [reconTable, length_getDateArray]

theorem mem_reconTable {fbData : FbMap} {ttData : TtMap} {startD stopD : Nat}
    {r : ProcessedMarketingDataEntry} :
    r ∈ reconTable fbData ttData startD stopD ↔
      ∃ d, startD ≤ d ∧ d ≤ stopD ∧ mkDailyRecord fbData ttData d = r := by
  simp only [reconTable, List.mem_mergeSort, List.mem_map, mem_getDateArray]
  constructor
  · rintro ⟨d, ⟨h1, h2⟩, h3⟩
    exact ⟨d, h1, h2, h3⟩
  · rintro ⟨d, h1, h2, h3⟩
    exact ⟨d, ⟨h1, h2⟩, h3⟩

theorem nodup_dates_reconTable (fbData : FbMap) (ttData : TtMap)
    (startD stopD : Nat) :
    ((reconTable fbData ttData startD stopD).map fun r => r.base.date).Nodup := by
  have hperm : List.Perm (reconTable fbData ttData startD stopD)
      ((getDateArray startD stopD).map (mkDailyRecord fbData ttData)) :=
    List.mergeSort_perm _ _
  rw [(hperm.map fun r => r.base.date).nodup_iff, map_date_mkDailyRecord]
  exact nodup_getDateArray startD stopD

theorem sorted_reconTable (fbData : FbMap) (ttData : TtMap) (startD stopD : Nat) :
    (reconTable fbData ttData startD stopD).Pairwise
      fun a b => b.base.date < a.base.date := by
  have hsorted : (reconTable fbData ttData startD stopD).Pairwise
      fun a b => decide (b.base.date ≤ a.base.date) = true := by
    apply List.sorted_mergeSort
    · intro a b c hab hbc
      simp only [decide_eq_true_eq] at *
      omega
    · intro a b
      simp only [Bool.or_eq_true, decide_eq_true_eq]
      omega
  have hnodup : ((reconTable fbData ttData startD stopD).map
      fun r => r.base.date).Pairwise (· ≠ ·) :=
    nodup_dates_reconTable fbData ttData startD stopD
  have hne := List.pairwise_map.mp hnodup
  refine (hsorted.and hne).imp ?_
  rintro a b ⟨h1, h2⟩
  simp only [decide_eq_true_eq] at h1
  omega

/-- A day with no Facebook entry produces a record whose Facebook side is
entirely zero. -/
theorem mkDailyRecord_fb_default (fbData : FbMap) (ttData : TtMap) (d : Nat)
    (h : fbData d = none) : fbAllZero (mkDailyRecord fbData ttData d) := by
  simp [mkDailyRecord, fbAllZero, h, defaultFbEntry, calculateAllDerivedMetrics,
    calculateMetric, JSNum.eqZero, JSNum.isNaN]

/-- A day with no TikTok entry produces a record whose TikTok side is
entirely zero. -/
theorem mkDailyRecord_tt_default (fbData : FbMap) (ttData : TtMap) (d : Nat)
    (h : ttData d = none) : ttAllZero (mkDailyRecord fbData ttData d) := by
  simp [mkDailyRecord, ttAllZero, h, defaultTtEntry, calculateAllDerivedMetrics,
    calculateMetric, JSNum.eqZero, JSNum.isNaN]

/-- A day with a Facebook entry carries its four counters through
unchanged. -/
theorem mkDailyRecord_fb_entry (fbData : FbMap) (ttData : TtMap) (d : Nat)
    (e : FbBase) (h : fbData d = some e) :
    (mkDailyRecord fbData ttData d).base.fbClicks = e.fbClicks ∧
      (mkDailyRecord fbData ttData d).base.fbImpr = e.fbImpr ∧
      (mkDailyRecord fbData ttData d).base.fbCost = e.fbCost ∧
      (mkDailyRecord fbData ttData d).base.fbConv = e.fbConv := by
  simp [mkDailyRecord, h]

/-- A day with a TikTok entry carries its four counters through
unchanged. -/
theorem mkDailyRecord_tt_entry (fbData : FbMap) (ttData : TtMap) (d : Nat)
    (e : TtBase) (h : ttData d = some e) :
    (mkDailyRecord fbData ttData d).base.ttClicks = e.ttClicks ∧
      (mkDailyRecord fbData ttData d).base.ttImpr = e.ttImpr ∧
      (mkDailyRecord fbData ttData d).base.ttCost = e.ttCost ∧
      (mkDailyRecord fbData ttData d).base.ttConv = e.ttConv := by
  simp [mkDailyRecord, h]

end GetLiveData

/-! ## Claims -/

/-- C1 counterexample: the claim covers both implementations of the metric
deriver, but the frontend one (`DataCalculations.calculateMetric`) guards
only a zero denominator: on a base entry with `NaN` clicks and the nonzero
impressions `2`, its CTR output is `NaN` — not `0`, and not a plain
number. -/
theorem c1_counterexample :
    (DataCalculations.calculateAllMetrics
        ⟨0, JSNum.nan, JSNum.num 2, JSNum.num 1, JSNum.num 1, JSNum.num 1,
          JSNum.num 1, JSNum.num 1, JSNum.num 1⟩).fbCtr = JSNum.nan ∧
      JSNum.nan ≠ JSNum.num 0 ∧ JSNum.isFinite JSNum.nan = false :=
  ⟨rfl, by decide, rfl⟩

/-- C1 (amended): in the backend metric deriver, any ratio whose
denominator is `0`, or whose numerator or denominator is `NaN`, evaluates
to exactly `0` (never infinity, never `NaN`, never an error), so every
derived field of the backend output is a plain (finite) number — the base
counters being non-infinite (finite or `NaN`), the fragment the pipeline's
numeric coercions produce.  The frontend deriver shares only the
zero-denominator half of the policy: a `0` denominator yields `0` there
too, but `NaN` operands propagate (see the counterexample). -/
theorem c1_zero_denominator_policy
    (numerator denominator multiplier : JSNum) (b : RawMarketingDataEntry)
    (hguard : denominator.eqZero = true ∨ numerator.isNaN = true ∨
      denominator.isNaN = true)
    (hb : b.fieldsFiniteOrNaN = true) :
    GetLiveData.calculateMetric numerator denominator multiplier = JSNum.num 0 ∧
      (GetLiveData.calculateAllDerivedMetrics b).allFinite = true ∧
      (denominator.eqZero = true →
        DataCalculations.calculateMetric numerator denominator multiplier =
          JSNum.num 0) := by
  refine ⟨GetLiveData.calculateMetric_guard numerator denominator multiplier
    hguard, ?_, ?_⟩
  · simp only [RawMarketingDataEntry.fieldsFiniteOrNaN, Bool.and_eq_true] at hb
    obtain ⟨⟨⟨⟨⟨⟨⟨h1, h2⟩, h3⟩, h4⟩, h5⟩, h6⟩, h7⟩, h8⟩ := hb
    simp only [CalculatedMetrics.allFinite, GetLiveData.calculateAllDerivedMetrics,
      Bool.and_eq_true]
    refine ⟨⟨⟨⟨⟨⟨⟨⟨⟨?_, ?_⟩, ?_⟩, ?_⟩, ?_⟩, ?_⟩, ?_⟩, ?_⟩, ?_⟩, ?_⟩ <;>
      apply GetLiveData.calculateMetric_isFinite <;> first | assumption | rfl
  · intro h
    simp [DataCalculations.calculateMetric, h]

/-- C1 witness: the guard and finiteness instantiated at denominator `0`
and an all-one entry, for both derivers. -/
theorem c1_zero_denominator_policy_witness :
    GetLiveData.calculateMetric (JSNum.num 1) (JSNum.num 0) (JSNum.num 100) =
      JSNum.num 0 ∧
      (GetLiveData.calculateAllDerivedMetrics
        ⟨0, JSNum.num 1, JSNum.num 1, JSNum.num 1, JSNum.num 1, JSNum.num 1,
          JSNum.num 1, JSNum.num 1, JSNum.num 1⟩).allFinite = true ∧
      ((JSNum.num 0).eqZero = true →
        DataCalculations.calculateMetric (JSNum.num 1) (JSNum.num 0)
          (JSNum.num 100) = JSNum.num 0) :=
  c1_zero_denominator_policy (JSNum.num 1) (JSNum.num 0) (JSNum.num 100)
    ⟨0, JSNum.num 1, JSNum.num 1, JSNum.num 1, JSNum.num 1, JSNum.num 1,
      JSNum.num 1, JSNum.num 1, JSNum.num 1⟩ (Or.inl (by decide)) (by decide)

/-- C4: for every pair of calendar days with `start ≤ end`, the date-range
enumerator `getDateArray` returns exactly `end − start + 1` unique calendar
days, consecutive (`i`-th element is `start + i`) and strictly ascending,
inclusive of both endpoints; `getDateArray d d = [d]`; and for `start > end`
it returns the empty sequence rather than an error. -/
theorem c4_date_range_enumerator (s e d : Nat) (hse : s ≤ e) :
    (GetLiveData.getDateArray s e).length = e - s + 1 ∧
      (GetLiveData.getDateArray s e).Nodup ∧
      (∀ i : Nat, i < (GetLiveData.getDateArray s e).length →
        (GetLiveData.getDateArray s e).getD i 0 = s + i) ∧
      (GetLiveData.getDateArray s e).Pairwise (· < ·) ∧
      s ∈ GetLiveData.getDateArray s e ∧ e ∈ GetLiveData.getDateArray s e ∧
      GetLiveData.getDateArray d d = [d] ∧
      (∀ s2 e2 : Nat, e2 < s2 → GetLiveData.getDateArray s2 e2 = []) := by
  refine ⟨?_, GetLiveData.nodup_getDateArray s e,
    fun i hi => GetLiveData.getDateArray_getD s e i hi,
    GetLiveData.pairwise_lt_getDateArray s e,
    GetLiveData.mem_getDateArray.mpr ⟨Nat.le_refl s, hse⟩,
    GetLiveData.mem_getDateArray.mpr ⟨hse, Nat.le_refl e⟩, ?_, ?_⟩
  · rw [GetLiveData.length_getDateArray]; omega
  · rw [GetLiveData.getDateArray_eq_range']
    simp
  · intro s2 e2 h
    rw [GetLiveData.getDateArray_eq_range']
    have : e2 + 1 - s2 = 0 := by omega
    rw [this, List.range']

/-- C4 witness: the enumerator's properties instantiated at the range
`3..7` (and the singleton day `5`). -/
theorem c4_date_range_enumerator_witness :
    (GetLiveData.getDateArray 3 7).length = 7 - 3 + 1 ∧
      (GetLiveData.getDateArray 3 7).Nodup ∧
      (∀ i : Nat, i < (GetLiveData.getDateArray 3 7).length →
        (GetLiveData.getDateArray 3 7).getD i 0 = 3 + i) ∧
      (GetLiveData.getDateArray 3 7).Pairwise (· < ·) ∧
      3 ∈ GetLiveData.getDateArray 3 7 ∧ 7 ∈ GetLiveData.getDateArray 3 7 ∧
      GetLiveData.getDateArray 5 5 = [5] ∧
      (∀ s2 e2 : Nat, e2 < s2 → GetLiveData.getDateArray s2 e2 = []) :=
  c4_date_range_enumerator 3 7 5 (by decide)

/-- C5: the deriver computes CTR = clicks/impressions × 100,
CPM = cost/impressions × 1000, CPC = cost/clicks, CPA = cost/conversions and
CVR = conversions/clicks × 100 (per platform, here whenever the denominators
are non-zero rationals), and on the example base metrics
`{clicks 50, impressions 1000, cost 25, conversions 5}` yields exactly
CTR = 5, CPM = 25, CPC = 0.5, CPA = 5, CVR = 10. -/
theorem c5_metric_formulas (dt : Nat) (c i co cv tc ti tco tcv : ℚ)
    (hi : i ≠ 0) (hc : c ≠ 0) (hv : cv ≠ 0)
    (hti : ti ≠ 0) (htc : tc ≠ 0) (htv : tcv ≠ 0) :
    (GetLiveData.calculateAllDerivedMetrics
        ⟨dt, JSNum.num c, JSNum.num i, JSNum.num co, JSNum.num cv,
          JSNum.num tc, JSNum.num ti, JSNum.num tco, JSNum.num tcv⟩ =
      { fbCtr := JSNum.num (c / i * 100), fbCpm := JSNum.num (co / i * 1000),
        fbCpc := JSNum.num (co / c), fbCpa := JSNum.num (co / cv),
        fbCvr := JSNum.num (cv / c * 100),
        ttCtr := JSNum.num (tc / ti * 100), ttCpm := JSNum.num (tco / ti * 1000),
        ttCpc := JSNum.num (tco / tc), ttCpa := JSNum.num (tco / tcv),
        ttCvr := JSNum.num (tcv / tc * 100) }) ∧
      GetLiveData.calculateAllDerivedMetrics
          ⟨0, JSNum.num 50, JSNum.num 1000, JSNum.num 25, JSNum.num 5,
            JSNum.num 0, JSNum.num 0, JSNum.num 0, JSNum.num 0⟩ =
        { fbCtr := JSNum.num 5, fbCpm := JSNum.num 25, fbCpc := JSNum.num (1 / 2),
          fbCpa := JSNum.num 5, fbCvr := JSNum.num 10,
          ttCtr := JSNum.num 0, ttCpm := JSNum.num 0, ttCpc := JSNum.num 0,
          ttCpa := JSNum.num 0, ttCvr := JSNum.num 0 } := by
  constructor
  · simp [GetLiveData.calculateAllDerivedMetrics, GetLiveData.calculateMetric,
      JSNum.eqZero, JSNum.isNaN, JSNum.jsDiv, JSNum.jsMul, hi, hc, hv, hti, htc, htv]
  · simp [GetLiveData.calculateAllDerivedMetrics, GetLiveData.calculateMetric,
      JSNum.eqZero, JSNum.isNaN, JSNum.jsDiv, JSNum.jsMul]
    norm_num

/-- C5 witness: the general formulas instantiated at the spec's example
(with all-one TikTok counters). -/
theorem c5_metric_formulas_witness :
    (GetLiveData.calculateAllDerivedMetrics
        ⟨0, JSNum.num 50, JSNum.num 1000, JSNum.num 25, JSNum.num 5,
          JSNum.num 1, JSNum.num 1, JSNum.num 1, JSNum.num 1⟩ =
      { fbCtr := JSNum.num (50 / 1000 * 100), fbCpm := JSNum.num (25 / 1000 * 1000),
        fbCpc := JSNum.num (25 / 50), fbCpa := JSNum.num (25 / 5),
        fbCvr := JSNum.num (5 / 50 * 100),
        ttCtr := JSNum.num (1 / 1 * 100), ttCpm := JSNum.num (1 / 1 * 1000),
        ttCpc := JSNum.num (1 / 1), ttCpa := JSNum.num (1 / 1),
        ttCvr := JSNum.num (1 / 1 * 100) }) ∧
      GetLiveData.calculateAllDerivedMetrics
          ⟨0, JSNum.num 50, JSNum.num 1000, JSNum.num 25, JSNum.num 5,
            JSNum.num 0, JSNum.num 0, JSNum.num 0, JSNum.num 0⟩ =
        { fbCtr := JSNum.num 5, fbCpm := JSNum.num 25, fbCpc := JSNum.num (1 / 2),
          fbCpa := JSNum.num 5, fbCvr := JSNum.num 10,
          ttCtr := JSNum.num 0, ttCpm := JSNum.num 0, ttCpc := JSNum.num 0,
          ttCpa := JSNum.num 0, ttCvr := JSNum.num 0 } :=
  c5_metric_formulas 0 50 1000 25 5 1 1 1 1 (by decide) (by decide) (by decide)
    (by decide) (by decide) (by decide)

/-- The frontend and backend `calculateMetric` agree whenever neither the
numerator nor the denominator is `NaN` (the backend's extra `NaN` guards are
then inert). -/
theorem calculateMetric_frontend_eq_backend (numerator denominator multiplier : JSNum)
    (hn : numerator.isNaN = false) (hd : denominator.isNaN = false) :
    DataCalculations.calculateMetric numerator denominator multiplier =
      GetLiveData.calculateMetric numerator denominator multiplier := by
  simp [DataCalculations.calculateMetric, GetLiveData.calculateMetric, hn, hd]

/-- C10: on every entry whose eight base counters are all non-`NaN`, the
frontend deriver `calculateAllMetrics` and the backend deriver
`calculateAllDerivedMetrics` return exactly the same ten derived values. -/
theorem c10_deriver_equivalence (b : RawMarketingDataEntry)
    (h : b.noNaNFields = true) :
    DataCalculations.calculateAllMetrics b = GetLiveData.calculateAllDerivedMetrics b := by
  simp only [RawMarketingDataEntry.noNaNFields, Bool.and_eq_true,
    Bool.not_eq_true'] at h
  obtain ⟨⟨⟨⟨⟨⟨⟨h1, h2⟩, h3⟩, h4⟩, h5⟩, h6⟩, h7⟩, h8⟩ := h
  simp only [DataCalculations.calculateAllMetrics,
    GetLiveData.calculateAllDerivedMetrics,
    calculateMetric_frontend_eq_backend _ _ _ h1 h2,
    calculateMetric_frontend_eq_backend _ _ _ h3 h2,
    calculateMetric_frontend_eq_backend _ _ _ h3 h1,
    calculateMetric_frontend_eq_backend _ _ _ h3 h4,
    calculateMetric_frontend_eq_backend _ _ _ h4 h1,
    calculateMetric_frontend_eq_backend _ _ _ h5 h6,
    calculateMetric_frontend_eq_backend _ _ _ h7 h6,
    calculateMetric_frontend_eq_backend _ _ _ h7 h5,
    calculateMetric_frontend_eq_backend _ _ _ h7 h8,
    calculateMetric_frontend_eq_backend _ _ _ h8 h5]

/-- C10 witness: the two derivers agree on a concrete numeric entry. -/
theorem c10_deriver_equivalence_witness :
    DataCalculations.calculateAllMetrics
        ⟨0, JSNum.num 50, JSNum.num 1000, JSNum.num 25, JSNum.num 5,
          JSNum.num 3, JSNum.num 0, JSNum.num 4, JSNum.num 2⟩ =
      GetLiveData.calculateAllDerivedMetrics
        ⟨0, JSNum.num 50, JSNum.num 1000, JSNum.num 25, JSNum.num 5,
          JSNum.num 3, JSNum.num 0, JSNum.num 4, JSNum.num 2⟩ :=
  c10_deriver_equivalence
    ⟨0, JSNum.num 50, JSNum.num 1000, JSNum.num 25, JSNum.num 5,
      JSNum.num 3, JSNum.num 0, JSNum.num 4, JSNum.num 2⟩ (by decide)

/-- C2: on a `GET` request with all credentials present (and enough history
before `today` for the lookback), the run does not raise — the handler
returns an `ok` table of full length regardless of the two adapter
outcomes — and whichever adapter promise rejected has its platform's four
base counters and five derived metrics all-zero in every record. -/
theorem c2_failed_adapter_zero_fill (m2 : Option String) (env : GetLiveData.Env)
    (dq : Option String) (today : Nat)
    (fbO : GetLiveData.Settled GetLiveData.FbMap)
    (ttO : GetLiveData.Settled GetLiveData.TtMap)
    (hcred : GetLiveData.credsPresent env = true) (htoday : 364 ≤ today) :
    ∃ data, GetLiveData.handler (some "GET") m2 env dq today fbO ttO =
        GetLiveData.Response.ok data ∧
      data.length = GetLiveData.resolveDaysToFetch dq ∧
      (fbO = GetLiveData.Settled.rejected →
        ∀ r ∈ data, GetLiveData.fbAllZero r) ∧
      (ttO = GetLiveData.Settled.rejected →
        ∀ r ∈ data, GetLiveData.ttAllZero r) := by
  refine ⟨_, GetLiveData.handler_ok_eq m2 env dq today fbO ttO hcred, ?_, ?_, ?_⟩
  · rw [GetLiveData.length_reconTable]
    rcases GetLiveData.resolveDaysToFetch_cases dq with h | h <;> rw [h] <;> omega
  · rintro rfl r hr
    rw [GetLiveData.mem_reconTable] at hr
    obtain ⟨d, -, -, rfl⟩ := hr
    exact GetLiveData.mkDailyRecord_fb_default _ _ _ rfl
  · rintro rfl r hr
    rw [GetLiveData.mem_reconTable] at hr
    obtain ⟨d, -, -, rfl⟩ := hr
    exact GetLiveData.mkDailyRecord_tt_default _ _ _ rfl

/-- C2 witness: both adapters rejected, 90-day default lookback at epoch day
400. -/
theorem c2_failed_adapter_zero_fill_witness :
    ∃ data, GetLiveData.handler (some "GET") none
        ⟨some "mt", some "ma", some "tt", some "ta"⟩ none 400
        GetLiveData.Settled.rejected GetLiveData.Settled.rejected =
        GetLiveData.Response.ok data ∧
      data.length = GetLiveData.resolveDaysToFetch none ∧
      (GetLiveData.Settled.rejected =
          (GetLiveData.Settled.rejected : GetLiveData.Settled GetLiveData.FbMap) →
        ∀ r ∈ data, GetLiveData.fbAllZero r) ∧
      (GetLiveData.Settled.rejected =
          (GetLiveData.Settled.rejected : GetLiveData.Settled GetLiveData.TtMap) →
        ∀ r ∈ data, GetLiveData.ttAllZero r) :=
  c2_failed_adapter_zero_fill none ⟨some "mt", some "ma", some "tt", some "ta"⟩
    none 400 GetLiveData.Settled.rejected GetLiveData.Settled.rejected
    (by decide) (by decide)

/-- C3: on a `GET` request with all credentials present (and enough history
before `today` for the lookback), the returned table has length equal to
the accepted `lookbackDays`, its calendar days are pairwise distinct, and
the records are sorted strictly descending by calendar day. -/
theorem c3_table_shape (m2 : Option String) (env : GetLiveData.Env)
    (dq : Option String) (today : Nat)
    (fbO : GetLiveData.Settled GetLiveData.FbMap)
    (ttO : GetLiveData.Settled GetLiveData.TtMap)
    (hcred : GetLiveData.credsPresent env = true) (htoday : 364 ≤ today) :
    ∃ data, GetLiveData.handler (some "GET") m2 env dq today fbO ttO =
        GetLiveData.Response.ok data ∧
      data.length = GetLiveData.resolveDaysToFetch dq ∧
      (data.map fun r => r.base.date).Nodup ∧
      data.Pairwise (fun a b => b.base.date < a.base.date) := by
  refine ⟨_, GetLiveData.handler_ok_eq m2 env dq today fbO ttO hcred, ?_,
    GetLiveData.nodup_dates_reconTable _ _ _ _,
    GetLiveData.sorted_reconTable _ _ _ _⟩
  rw [GetLiveData.length_reconTable]
  rcases GetLiveData.resolveDaysToFetch_cases dq with h | h <;> rw [h] <;> omega

/-- C3 witness: the table shape at the 365-day lookback, epoch day 400. -/
theorem c3_table_shape_witness :
    ∃ data, GetLiveData.handler (some "GET") none
        ⟨some "mt", some "ma", some "tt", some "ta"⟩ (some "365") 400
        (GetLiveData.Settled.fulfilled GetLiveData.emptyMap)
        GetLiveData.Settled.rejected = GetLiveData.Response.ok data ∧
      data.length = GetLiveData.resolveDaysToFetch (some "365") ∧
      (data.map fun r => r.base.date).Nodup ∧
      data.Pairwise (fun a b => b.base.date < a.base.date) :=
  c3_table_shape none ⟨some "mt", some "ma", some "tt", some "ta"⟩
    (some "365") 400 (GetLiveData.Settled.fulfilled GetLiveData.emptyMap)
    GetLiveData.Settled.rejected (by decide) (by decide)

/-- C6: for every day of the canonical range that is absent from one
platform's fulfilled mapping, the output table contains a record for that
day whose side for that platform is entirely zero (base counters and
derived metrics), while the other platform's entry for that day, when
present, is carried through unchanged. -/
theorem c6_dense_zero_fill (m2 : Option String) (env : GetLiveData.Env)
    (dq : Option String) (today d : Nat)
    (fbM : GetLiveData.FbMap) (ttM : GetLiveData.TtMap)
    (hcred : GetLiveData.credsPresent env = true)
    (hd1 : today - (GetLiveData.resolveDaysToFetch dq - 1) ≤ d)
    (hd2 : d ≤ today) :
    ∃ data, GetLiveData.handler (some "GET") m2 env dq today
        (GetLiveData.Settled.fulfilled fbM) (GetLiveData.Settled.fulfilled ttM) =
        GetLiveData.Response.ok data ∧
      ∃ r ∈ data, r.base.date = d ∧
        (fbM d = none → GetLiveData.fbAllZero r ∧
          ∀ e, ttM d = some e → r.base.ttClicks = e.ttClicks ∧
            r.base.ttImpr = e.ttImpr ∧ r.base.ttCost = e.ttCost ∧
            r.base.ttConv = e.ttConv) ∧
        (ttM d = none → GetLiveData.ttAllZero r ∧
          ∀ e, fbM d = some e → r.base.fbClicks = e.fbClicks ∧
            r.base.fbImpr = e.fbImpr ∧ r.base.fbCost = e.fbCost ∧
            r.base.fbConv = e.fbConv) := by
  refine ⟨_, GetLiveData.handler_ok_eq m2 env dq today _ _ hcred,
    GetLiveData.mkDailyRecord fbM ttM d,
    GetLiveData.mem_reconTable.mpr ⟨d, hd1, hd2, rfl⟩,
    GetLiveData.mkDailyRecord_date fbM ttM d, ?_, ?_⟩
  · intro hfb
    exact ⟨GetLiveData.mkDailyRecord_fb_default fbM ttM d hfb,
      fun e he => GetLiveData.mkDailyRecord_tt_entry fbM ttM d e he⟩
  · intro htt
    exact ⟨GetLiveData.mkDailyRecord_tt_default fbM ttM d htt,
      fun e he => GetLiveData.mkDailyRecord_fb_entry fbM ttM d e he⟩

/-- C6 witness: with an empty Facebook mapping and a TikTok mapping holding
an entry for epoch day 311 (the oldest day of a 90-day lookback ending at
day 400), the record for day 311 is Facebook-zero and carries the TikTok
entry. -/
theorem c6_dense_zero_fill_witness :
    ∃ data, GetLiveData.handler (some "GET") none
        ⟨some "mt", some "ma", some "tt", some "ta"⟩ none 400
        (GetLiveData.Settled.fulfilled GetLiveData.emptyMap)
        (GetLiveData.Settled.fulfilled
          (GetLiveData.mapInsert GetLiveData.emptyMap 311
            ⟨JSNum.num 7, JSNum.num 3, JSNum.num 9, JSNum.num 1⟩)) =
        GetLiveData.Response.ok data ∧
      ∃ r ∈ data, r.base.date = 311 ∧
        (GetLiveData.emptyMap 311 = (none : Option GetLiveData.FbBase) →
          GetLiveData.fbAllZero r ∧
          ∀ e, GetLiveData.mapInsert GetLiveData.emptyMap 311
              (⟨JSNum.num 7, JSNum.num 3, JSNum.num 9, JSNum.num 1⟩ :
                GetLiveData.TtBase) 311 = some e →
            r.base.ttClicks = e.ttClicks ∧ r.base.ttImpr = e.ttImpr ∧
            r.base.ttCost = e.ttCost ∧ r.base.ttConv = e.ttConv) ∧
        (GetLiveData.mapInsert GetLiveData.emptyMap 311
            (⟨JSNum.num 7, JSNum.num 3, JSNum.num 9, JSNum.num 1⟩ :
              GetLiveData.TtBase) 311 = none →
          GetLiveData.ttAllZero r ∧
          ∀ e, (GetLiveData.emptyMap 311 : Option GetLiveData.FbBase) = some e →
            r.base.fbClicks = e.fbClicks ∧ r.base.fbImpr = e.fbImpr ∧
            r.base.fbCost = e.fbCost ∧ r.base.fbConv = e.fbConv) :=
  c6_dense_zero_fill none ⟨some "mt", some "ma", some "tt", some "ta"⟩ none
    400 311 GetLiveData.emptyMap
    (GetLiveData.mapInsert GetLiveData.emptyMap 311
      ⟨JSNum.num 7, JSNum.num 3, JSNum.num 9, JSNum.num 1⟩)
    (by decide) (by decide) (by decide)

/-- C7 counterexample: a non-integer `days` value is not always replaced
with the default `90` — `parseInt` truncates `"365.5"` to its decimal digit
prefix `365`, which the handler then accepts as the lookback, refuting the
claim's "non-integers are replaced with the default 90". -/
theorem c7_counterexample :
    GetLiveData.resolveDaysToFetch (some "365.5") = 365 ∧ (365 : Nat) ≠ 90 :=
  ⟨rfl, by decide⟩

/-- C7 (amended): the handler uses a requested `days` value exactly when
its `parseInt(·, 10)` parse is `90` or `365`; since `parseInt` takes the
leading decimal-digit prefix, non-integer strings such as `"365.5"` are
accepted as `365` rather than replaced.  Every other request — a `NaN`
parse, an absent or empty parameter, or any other parsed integer — falls
back to the default `90`, and no `days` value causes the request to be
rejected: the handler still returns an `ok` table. -/
theorem c7_lookback_validation (s : String) (dq : Option String) :
    GetLiveData.resolveDaysToFetch (some "90") = 90 ∧
      GetLiveData.resolveDaysToFetch (some "365") = 365 ∧
      GetLiveData.resolveDaysToFetch (some "365.5") = 365 ∧
      (∀ n : Int, GetLiveData.parseInt s = some n → n ≠ 90 → n ≠ 365 →
        GetLiveData.resolveDaysToFetch (some s) = 90) ∧
      (GetLiveData.parseInt s = none →
        GetLiveData.resolveDaysToFetch (some s) = 90) ∧
      GetLiveData.resolveDaysToFetch (some "") = 90 ∧
      GetLiveData.resolveDaysToFetch none = 90 ∧
      (GetLiveData.resolveDaysToFetch dq = 90 ∨
        GetLiveData.resolveDaysToFetch dq = 365) ∧
      (∀ (m2 : Option String) (env : GetLiveData.Env) (today : Nat)
        (fbO : GetLiveData.Settled GetLiveData.FbMap)
        (ttO : GetLiveData.Settled GetLiveData.TtMap),
        GetLiveData.credsPresent env = true →
        ∃ data, GetLiveData.handler (some "GET") m2 env dq today fbO ttO =
          GetLiveData.Response.ok data) := by
  refine ⟨rfl, rfl, rfl, ?_, ?_, rfl, rfl,
    GetLiveData.resolveDaysToFetch_cases dq, ?_⟩
  · intro n hp h90 h365
    have hne : ¬(s = "") := by
      intro h
      subst h
      simp [GetLiveData.parseInt, GetLiveData.digitsPrefix] at hp
    simp [GetLiveData.resolveDaysToFetch, hne, hp, h90, h365]
  · intro hp
    by_cases hne : s = ""
    · subst hne
      rfl
    · simp [GetLiveData.resolveDaysToFetch, hne, hp]
  · intro m2 env today fbO ttO hcred
    exact ⟨_, GetLiveData.handler_ok_eq m2 env dq today fbO ttO hcred⟩

/-- C7 witness: the value `"17"` parses to `17` and is replaced with the
default `90`. -/
theorem c7_lookback_validation_witness :
    GetLiveData.resolveDaysToFetch (some "17") = 90 :=
  (c7_lookback_validation "17" (some "17")).2.2.2.1 17 (by decide) (by decide)
    (by decide)

/-- C8: whenever any of the four credentials is absent (falsy), a `GET`
request is answered with the service-unavailable response — uniformly in
the adapter outcomes (they are never consulted), and no table, partial or
otherwise, is produced. -/
theorem c8_missing_credentials (httpM m2 : Option String)
    (env : GetLiveData.Env) (dq : Option String) (today : Nat)
    (hmethod : httpM = some "GET" ∨ m2 = some "GET")
    (hcred : GetLiveData.credsPresent env = false) :
    ∀ (fbO : GetLiveData.Settled GetLiveData.FbMap)
      (ttO : GetLiveData.Settled GetLiveData.TtMap),
      GetLiveData.handler httpM m2 env dq today fbO ttO =
        GetLiveData.Response.serviceUnavailable ∧
      ∀ data, GetLiveData.handler httpM m2 env dq today fbO ttO ≠
        GetLiveData.Response.ok data := by
  intro fbO ttO
  have h1 : ¬(httpM ≠ some "GET" ∧ m2 ≠ some "GET") := by
    rcases hmethod with h | h <;> simp [h]
  have hmain : GetLiveData.handler httpM m2 env dq today fbO ttO =
      GetLiveData.Response.serviceUnavailable := by
    simp [GetLiveData.handler, h1, hcred]
  refine ⟨hmain, fun data hdata => ?_⟩
  rw [hmain] at hdata
  exact GetLiveData.Response.noConfusion hdata

/-- C8 witness: a missing Meta access token yields 503 for any adapter
outcomes, and no table. -/
theorem c8_missing_credentials_witness :
    GetLiveData.handler (some "GET") none
        ⟨none, some "ma", some "tt", some "ta"⟩ none 400
        GetLiveData.Settled.rejected GetLiveData.Settled.rejected =
      GetLiveData.Response.serviceUnavailable ∧
      ∀ data, GetLiveData.handler (some "GET") none
          ⟨none, some "ma", some "tt", some "ta"⟩ none 400
          GetLiveData.Settled.rejected GetLiveData.Settled.rejected ≠
        GetLiveData.Response.ok data :=
  c8_missing_credentials (some "GET") none
    ⟨none, some "ma", some "tt", some "ta"⟩ none 400 (Or.inl rfl) (by decide)
    GetLiveData.Settled.rejected GetLiveData.Settled.rejected

/-- C9 counterexample: with credentials that are present but invalid (a
non-empty token the upstream rejects), the Facebook adapter does attempt
the upstream call and raises, rather than returning an empty mapping — the
claim's "or invalid" does not hold of the code, which can only detect
locally the absent/empty case. -/
theorem c9_counterexample :
    GetLiveData.fetchFacebookData (some "invalid-token") (some "123")
        GetLiveData.FbUpstream.httpError =
      (true, GetLiveData.FetchResult.threw) := rfl

/-- C9 (amended): for every call to a source adapter with this platform's
credentials absent or empty (falsy), the adapter returns an empty mapping
immediately without attempting the upstream call, rather than raising. -/
theorem c9_degrade_to_empty (accessToken adAccountId ttToken advertiserId :
      Option String)
    (fbUp : GetLiveData.FbUpstream) (ttUp : GetLiveData.TtUpstream)
    (hfb : GetLiveData.falsy accessToken = true ∨
      GetLiveData.falsy adAccountId = true)
    (htt : GetLiveData.falsy ttToken = true ∨
      GetLiveData.falsy advertiserId = true) :
    GetLiveData.fetchFacebookData accessToken adAccountId fbUp =
        (false, GetLiveData.FetchResult.returned GetLiveData.emptyMap) ∧
      GetLiveData.fetchTikTokData ttToken advertiserId ttUp =
        (false, GetLiveData.FetchResult.returned GetLiveData.emptyMap) := by
  constructor
  · rcases hfb with h | h <;> simp [GetLiveData.fetchFacebookData, h]
  · rcases htt with h | h <;> simp [GetLiveData.fetchTikTokData, h]

/-- C9 witness: an absent Facebook token and an empty TikTok advertiser id
both degrade to the empty mapping without an attempted call. -/
theorem c9_degrade_to_empty_witness :
    GetLiveData.fetchFacebookData none (some "123")
        GetLiveData.FbUpstream.httpError =
        (false, GetLiveData.FetchResult.returned GetLiveData.emptyMap) ∧
      GetLiveData.fetchTikTokData (some "tok") (some "")
          GetLiveData.TtUpstream.apiError =
        (false, GetLiveData.FetchResult.returned GetLiveData.emptyMap) :=
  c9_degrade_to_empty none (some "123") (some "tok") (some "")
    GetLiveData.FbUpstream.httpError GetLiveData.TtUpstream.apiError
    (Or.inl (by decide)) (Or.inr (by decide))
